import Mathlib

/-!
Shallow embedding of the user-management service
(`Aldeimeter/effective-mobile-test-task`): error taxonomy
(`src/utils/errors.ts` via its uses), JWT token issuance and verification
(`src/services/token.service.ts`), the Redis-backed revocation store
(`src/services/redis.service.ts`), the authentication service
(`src/services/auth.service.ts`), the user-management service
(`src/services/user.service.ts`) and the authorization middleware
(`src/middlewares/auth.middleware.ts`).

Modelling conventions:
* `async` methods that may `throw` become functions into `Except Err _`;
  methods that mutate external stores take and return an explicit state.
* JWT strings become an inductive `Token`: a signed token remembers its
  payload, the signing secret and its expiry instant; everything else is
  `malformed`.  `jwt.sign`/`jwt.verify`/`jwt.decode` are interpreted on
  this type; time is an explicit `now : Nat` (seconds).
* `randomUUID()` results are passed in as explicit arguments; freshness
  (collision resistance) becomes a hypothesis where a proof needs it.
* JS objects returned to callers (the `{ password, ...rest }` spread in
  `excludePassword`) are modelled as association lists of field names, so
  "the projection has no `password` field" is a real proposition.
* JS truthiness tests on optional strings (`!decoded.tokenId`,
  `!userId`) are modelled by `jsTruthy`, which is false on `none` and on
  the empty string.
-/

/-- Roles, from the Prisma `Role` enum (`role ∈ {admin, user}`). -/
inductive Role where
  | admin
  | user
deriving DecidableEq, Repr

/-- Error taxonomy of `src/utils/errors.ts`, as used by the services:
each `AppError` subclass with its message. -/
inductive Err where
  | validation (msg : String)
  | unauthorized (msg : String)
  | forbidden (msg : String)
  | notFound (msg : String)
  | conflict (msg : String)
  | serviceUnavailable (msg : String)
deriving DecidableEq, Repr

/-- Token kinds (`type: "access" | "refresh"` in `TokenPayload`). -/
inductive TokenType where
  | access
  | refresh
deriving DecidableEq, Repr

/-- `TokenPayload` from `src/types/index.ts`: `tokenId` is optional and
only set for refresh tokens. -/
structure TokenPayload where
  userId : String
  role : Role
  type : TokenType
  tokenId : Option String
deriving DecidableEq, Repr

/-- A JWT string, interpreted: `signed` remembers the payload, the secret
used by `jwt.sign` and the absolute expiry instant (seconds); `malformed`
covers strings `jwt.decode` cannot parse. -/
inductive Token where
  | signed (payload : TokenPayload) (secret : String) (expiresAt : Nat)
  | malformed (s : String)
deriving DecidableEq, Repr

/-- JS truthiness of an optional string: `none` and `""` are falsy. -/
def jsTruthy : Option String → Bool
  | none => false
  | some s => !s.isEmpty

/-- Configuration and injected collaborators: the `TokenService`
constructor inputs (`JWT_SECRET`, `JWT_ACCESS_EXPIRATION`,
`JWT_REFRESH_EXPIRATION`, the latter two as the durations in seconds they
denote) and the password utilities `hashPassword` / `comparePassword`
(`src/utils/password.util.ts`, bcrypt, kept abstract). -/
structure Env where
  secret : String
  accessExpSec : Nat
  refreshExpSec : Nat
  hashPassword : String → String
  comparePassword : String → String → Bool

namespace TokenService

/-- `TokenService.generateAccessToken`: payload `{userId, role,
type: "access"}` (no `tokenId`), signed with the configured secret,
expiring after the configured access lifetime. -/
def generateAccessToken (env : Env) (userId : String) (role : Role)
    (now : Nat) : Token :=
  Token.signed ⟨userId, role, TokenType.access, none⟩ env.secret
    (now + env.accessExpSec)

/-- `TokenService.generateRefreshToken`: a fresh `tokenId` (passed in for
`randomUUID()`), payload `{userId, role, type: "refresh", tokenId}`,
expiring after the configured refresh lifetime. -/
def generateRefreshToken (env : Env) (userId : String) (role : Role)
    (tokenId : String) (now : Nat) : Token × String :=
  (Token.signed ⟨userId, role, TokenType.refresh, some tokenId⟩ env.secret
    (now + env.refreshExpSec), tokenId)

/-- `TokenService.generateTokenPair`: an access token plus a refresh
token with its `tokenId`. -/
def generateTokenPair (env : Env) (userId : String) (role : Role)
    (tokenId : String) (now : Nat) : Token × Token × String :=
  let accessToken := generateAccessToken env userId role now
  let (refreshToken, tid) := generateRefreshToken env userId role tokenId now
  (accessToken, refreshToken, tid)

/-- `TokenService.verifyToken`: `jwt.verify` with the configured secret —
malformed or wrong-secret tokens fail `Unauthorized("Invalid token")`,
expired ones `Unauthorized("Token expired")`. -/
def verifyToken (env : Env) (now : Nat) : Token → Except Err TokenPayload
  | Token.malformed _ => Except.error (Err.unauthorized "Invalid token")
  | Token.signed p s exp =>
    if s ≠ env.secret then Except.error (Err.unauthorized "Invalid token")
    else if exp ≤ now then Except.error (Err.unauthorized "Token expired")
    else Except.ok p

/-- `TokenService.decodeToken`: `jwt.decode` — returns the payload
without checking signature or expiry, `null` on unparsable input. -/
def decodeToken : Token → Option TokenPayload
  | Token.signed p _ _ => some p
  | Token.malformed _ => none

end TokenService

/-- One revocation entry: the key `refresh_token:<tokenId>` mapped to the
owning `userId`, together with the TTL (seconds) it was stored with. -/
structure RevEntry where
  tokenId : String
  userId : String
  ttl : Nat
deriving DecidableEq, Repr

/-- State of the Redis backing store: `available` is whether the client
calls succeed (every `catch` branch in `RedisService` maps a client
failure to `ServiceUnavailableError`); `entries` are the
`refresh_token:*` keys, `userTokens` the `user_tokens:<userId>` sets. -/
structure RedisSt where
  available : Bool
  entries : List RevEntry
  userTokens : List (String × List String)
deriving DecidableEq, Repr

namespace RedisSt

/-- `GET refresh_token:<tokenId>` (no availability check — the raw
key-value read). -/
def get (r : RedisSt) (tokenId : String) : Option String :=
  (r.entries.find? (fun e => e.tokenId == tokenId)).map (·.userId)

/-- `SETEX refresh_token:<tokenId> ttl userId`: overwrites any previous
value of the key. -/
def setex (r : RedisSt) (tokenId : String) (ttl : Nat) (userId : String) :
    RedisSt :=
  { r with entries :=
      ⟨tokenId, userId, ttl⟩ ::
        r.entries.filter (fun e => !(e.tokenId == tokenId)) }

/-- `SMEMBERS user_tokens:<userId>`: the empty list for an absent set. -/
def smembers (r : RedisSt) (userId : String) : List String :=
  ((r.userTokens.find? (fun kv => kv.1 == userId)).map (·.2)).getD []

/-- `SADD user_tokens:<userId> tokenId`. -/
def sadd (r : RedisSt) (userId : String) (tokenId : String) : RedisSt :=
  let old := r.smembers userId
  let mem := if old.contains tokenId then old else tokenId :: old
  { r with userTokens :=
      (userId, mem) :: r.userTokens.filter (fun kv => !(kv.1 == userId)) }

/-- `SREM user_tokens:<userId> tokenId`. -/
def srem (r : RedisSt) (userId : String) (tokenId : String) : RedisSt :=
  { r with userTokens :=
      r.userTokens.map (fun kv =>
        if kv.1 == userId then (kv.1, kv.2.filter (fun t => !(t == tokenId)))
        else kv) }

/-- `DEL refresh_token:<tokenId>`. -/
def delEntry (r : RedisSt) (tokenId : String) : RedisSt :=
  { r with entries := r.entries.filter (fun e => !(e.tokenId == tokenId)) }

/-- `DEL user_tokens:<userId>`. -/
def delSet (r : RedisSt) (userId : String) : RedisSt :=
  { r with userTokens := r.userTokens.filter (fun kv => !(kv.1 == userId)) }

end RedisSt

namespace RedisService

/-- `RedisService.refreshTokenTTL = 7 * 24 * 60 * 60` — a class constant
of `src/services/redis.service.ts`, not read from configuration. -/
def refreshTokenTTL : Nat := 7 * 24 * 60 * 60

/-- `RedisService.storeRefreshToken`: `SETEX` the entry with
`refreshTokenTTL`, `SADD` the token to the owner's set (the set's own
`EXPIRE` refresh is not modelled); any client failure becomes
`ServiceUnavailableError("Failed to store refresh token")`. -/
def storeRefreshToken (r : RedisSt) (tokenId userId : String) :
    Except Err RedisSt :=
  if r.available then
    Except.ok ((r.setex tokenId refreshTokenTTL userId).sadd userId tokenId)
  else
    Except.error (Err.serviceUnavailable "Failed to store refresh token")

/-- `RedisService.getRefreshToken`: `GET` of the entry, or
`ServiceUnavailableError("Failed to retrieve refresh token")`. -/
def getRefreshToken (r : RedisSt) (tokenId : String) :
    Except Err (Option String) :=
  if r.available then Except.ok (r.get tokenId)
  else Except.error (Err.serviceUnavailable "Failed to retrieve refresh token")

/-- `RedisService.deleteRefreshToken`: reads the owner first, `DEL`s the
entry, and if an owner was found (JS-truthy) `SREM`s the token from the
owner's set. -/
def deleteRefreshToken (r : RedisSt) (tokenId : String) :
    Except Err RedisSt :=
  if r.available then
    let userId := r.get tokenId
    let r1 := r.delEntry tokenId
    Except.ok
      (match userId with
       | some u => if u.isEmpty then r1 else r1.srem u tokenId
       | none => r1)
  else
    Except.error (Err.serviceUnavailable "Failed to delete refresh token")

/-- `RedisService.deleteAllUserTokens`: reads the owner's set; when it is
non-empty, `DEL`s every listed `refresh_token:*` key and the set itself
(nothing happens on an empty set). -/
def deleteAllUserTokens (r : RedisSt) (userId : String) :
    Except Err RedisSt :=
  if r.available then
    let tokenIds := r.smembers userId
    if tokenIds.length > 0 then
      let keep := r.entries.filter (fun e => !(tokenIds.contains e.tokenId))
      let r1 := { r with entries := keep }
      Except.ok (r1.delSet userId)
    else Except.ok r
  else
    Except.error (Err.serviceUnavailable "Failed to delete user tokens")

end RedisService

/-- A field value of a JS object returned to a caller. -/
inductive JsVal where
  | str (v : String)
  | nat (v : Nat)
  | bool (v : Bool)
  | role (v : Role)
  | tok (v : Token)
deriving DecidableEq, Repr

/-- A JS object as an association list of named fields. -/
abbrev JsObj := List (String × JsVal)

/-- Field lookup on a JS object. -/
def JsObj.lookup (o : JsObj) (k : String) : Option JsVal :=
  (o.find? (fun kv => kv.1 == k)).map (·.2)

/-- The Prisma `User` record (`prisma/schema.prisma` via
`generated/prisma`): `password` holds the bcrypt hash; dates and
timestamps are modelled as `String` / `Nat`. -/
structure User where
  id : String
  fullName : String
  email : String
  password : String
  dateOfBirth : String
  role : Role
  isActive : Bool
  createdAt : Nat
  updatedAt : Nat
deriving DecidableEq, Repr

/-- The `User` record as the JS object Prisma hands back, every field
included. -/
def User.toObj (u : User) : JsObj :=
  [("id", JsVal.str u.id),
   ("fullName", JsVal.str u.fullName),
   ("email", JsVal.str u.email),
   ("password", JsVal.str u.password),
   ("dateOfBirth", JsVal.str u.dateOfBirth),
   ("role", JsVal.role u.role),
   ("isActive", JsVal.bool u.isActive),
   ("createdAt", JsVal.nat u.createdAt),
   ("updatedAt", JsVal.nat u.updatedAt)]

/-- `excludePassword` (identical private helper in `AuthService` and
`UserService`): the rest-spread `const { password, ...rest } = user`,
i.e. the user object with exactly the `password` key removed. -/
def excludePassword (u : User) : JsObj :=
  u.toObj.filter (fun kv => !(kv.1 == "password"))

/-- Overall service state: the Credential Store's user table plus the
revocation store. -/
structure St where
  users : List User
  redis : RedisSt
deriving DecidableEq, Repr

/-- `prisma.user.findUnique({ where: { id } })`. -/
def findById (users : List User) (id : String) : Option User :=
  users.find? (fun u => u.id == id)

/-- Two strings equal up to letter case (characterwise lowercasing). -/
def lowerEq (a b : String) : Bool :=
  a.data.map Char.toLower == b.data.map Char.toLower

/-- Modelled from the spec: `prisma/schema.prisma` — the Credential
Store's email uniqueness/collation — is not under `src/`; the spec
declares email "unique, compared case-insensitively", so
`prisma.user.findUnique({ where: { email } })` is modelled as a
case-insensitive match. -/
def findByEmail (users : List User) (email : String) : Option User :=
  users.find? (fun u => lowerEq u.email email)

/-- `RegisterInput` (`src/validators/auth.validator.ts`), after
validation. -/
structure RegisterInput where
  fullName : String
  email : String
  password : String
  dateOfBirth : String
deriving DecidableEq, Repr

/-- Access/refresh token pair as returned to clients. -/
structure TokenPair where
  accessToken : Token
  refreshToken : Token
deriving DecidableEq, Repr

namespace AuthService

/-- `AuthService.register`: Conflict when a user already matches the
email; otherwise hash the password and create the user with
`role: "user"`, `isActive: true` (the fresh record id `newId` stands for
the id Prisma generates).  The first component is the post-call state,
kept also on the error path. -/
def register (env : Env) (st : St) (data : RegisterInput) (newId : String)
    (now : Nat) : St × Except Err JsObj :=
  match findByEmail st.users data.email with
  | some _ => (st, Except.error (Err.conflict "Email already exists"))
  | none =>
    let user : User :=
      { id := newId, fullName := data.fullName, email := data.email,
        password := env.hashPassword data.password,
        dateOfBirth := data.dateOfBirth, role := Role.user,
        isActive := true, createdAt := now, updatedAt := now }
    ({ st with users := st.users ++ [user] },
      Except.ok (excludePassword user))

/-- `AuthService.login`: find by email (absent ⇒
`Unauthorized("Invalid credentials")`), then the active check
(`Forbidden("Account is blocked")`), then the password check (mismatch ⇒
`Unauthorized("Invalid credentials")`); on success issue a pair
(`tokenId` stands for the `randomUUID()`), store the refresh token and
return the projection with the tokens. -/
def login (env : Env) (st : St) (email password : String) (tokenId : String)
    (now : Nat) : St × Except Err (JsObj × TokenPair) :=
  match findByEmail st.users email with
  | none => (st, Except.error (Err.unauthorized "Invalid credentials"))
  | some user =>
    if !user.isActive then
      (st, Except.error (Err.forbidden "Account is blocked"))
    else if !(env.comparePassword password user.password) then
      (st, Except.error (Err.unauthorized "Invalid credentials"))
    else
      let (accessToken, refreshToken, tid) :=
        TokenService.generateTokenPair env user.id user.role tokenId now
      match RedisService.storeRefreshToken st.redis tid user.id with
      | Except.error e => (st, Except.error e)
      | Except.ok redis =>
        ({ st with redis := redis },
          Except.ok (excludePassword user, ⟨accessToken, refreshToken⟩))

/-- `AuthService.refresh`: verify the token, require `type === "refresh"`
and a (JS-truthy) `tokenId`; look the id up in Redis (absent ⇒
`Unauthorized("Invalid or revoked token")`); load the user (absent ⇒
delete the stale entry, `NotFound`; inactive ⇒ delete the entry,
`Forbidden`); otherwise delete the old entry, issue a new pair
(`newTokenId` stands for the fresh `randomUUID()`) and store it. -/
def refresh (env : Env) (st : St) (token : Token) (newTokenId : String)
    (now : Nat) : St × Except Err TokenPair :=
  match TokenService.verifyToken env now token with
  | Except.error e => (st, Except.error e)
  | Except.ok decoded =>
    if decoded.type ≠ TokenType.refresh then
      (st, Except.error (Err.unauthorized "Invalid token type"))
    else if !(jsTruthy decoded.tokenId) then
      (st, Except.error (Err.unauthorized "Invalid token"))
    else
      let tid := decoded.tokenId.getD ""
      match RedisService.getRefreshToken st.redis tid with
      | Except.error e => (st, Except.error e)
      | Except.ok userId =>
        if !(jsTruthy userId) then
          (st, Except.error (Err.unauthorized "Invalid or revoked token"))
        else
          match findById st.users (userId.getD "") with
          | none =>
            (match RedisService.deleteRefreshToken st.redis tid with
             | Except.error e => (st, Except.error e)
             | Except.ok redis =>
               ({ st with redis := redis },
                 Except.error (Err.notFound "User not found")))
          | some user =>
            if !user.isActive then
              match RedisService.deleteRefreshToken st.redis tid with
              | Except.error e => (st, Except.error e)
              | Except.ok redis =>
                ({ st with redis := redis },
                  Except.error (Err.forbidden "Account is blocked"))
            else
              match RedisService.deleteRefreshToken st.redis tid with
              | Except.error e => (st, Except.error e)
              | Except.ok redis1 =>
                let (accessToken, newRefreshToken, newTid) :=
                  TokenService.generateTokenPair env user.id user.role
                    newTokenId now
                match RedisService.storeRefreshToken redis1 newTid user.id with
                | Except.error e =>
                  ({ st with redis := redis1 }, Except.error e)
                | Except.ok redis2 =>
                  ({ st with redis := redis2 },
                    Except.ok ⟨accessToken, newRefreshToken⟩)

/-- `AuthService.logout`: best-effort `jwt.decode`; when no payload or no
(JS-truthy) `tokenId` is recoverable, return success without touching the
store; otherwise delete the entry. -/
def logout (st : St) (token : Token) : St × Except Err Unit :=
  match TokenService.decodeToken token with
  | none => (st, Except.ok ())
  | some decoded =>
    if !(jsTruthy decoded.tokenId) then (st, Except.ok ())
    else
      match RedisService.deleteRefreshToken st.redis
          (decoded.tokenId.getD "") with
      | Except.error e => (st, Except.error e)
      | Except.ok redis => ({ st with redis := redis }, Except.ok ())

/-- `AuthService.logoutAll`: delete every refresh token of the user. -/
def logoutAll (st : St) (userId : String) : St × Except Err Unit :=
  match RedisService.deleteAllUserTokens st.redis userId with
  | Except.error e => (st, Except.error e)
  | Except.ok redis => ({ st with redis := redis }, Except.ok ())

end AuthService

namespace UserService

/-- `UserService.getUserById`: NotFound when absent, else the public
projection (read-only). -/
def getUserById (st : St) (userId : String) : Except Err JsObj :=
  match findById st.users userId with
  | none => Except.error (Err.notFound "User not found")
  | some user => Except.ok (excludePassword user)

/-- `UserService.blockUser`: NotFound when absent; otherwise update the
record to `isActive: false` (this write happens before, and survives, the
token cleanup), delete all of the user's tokens, and return the updated
projection. -/
def blockUser (st : St) (userId : String) (now : Nat) :
    St × Except Err JsObj :=
  match findById st.users userId with
  | none => (st, Except.error (Err.notFound "User not found"))
  | some user =>
    let blocked : User := { user with isActive := false, updatedAt := now }
    let users := st.users.map (fun u => if u.id == userId then blocked else u)
    match RedisService.deleteAllUserTokens st.redis userId with
    | Except.error e => ({ st with users := users }, Except.error e)
    | Except.ok redis =>
      ({ users := users, redis := redis }, Except.ok (excludePassword blocked))

/-- `UserService.getAllUsers`: every user's public projection
(read-only). -/
def getAllUsers (st : St) : Except Err (List JsObj) :=
  Except.ok (st.users.map excludePassword)

end UserService

/-- One service operation with all its inputs (the `randomUUID()` /
Prisma-generated identifiers and the clock passed explicitly). -/
inductive Op where
  | register (data : RegisterInput) (newId : String) (now : Nat)
  | login (email password tokenId : String) (now : Nat)
  | refresh (token : Token) (newTokenId : String) (now : Nat)
  | logout (token : Token)
  | logoutAll (userId : String)
  | getUserById (userId : String)
  | getAllUsers
  | blockUser (userId : String) (now : Nat)

/-- The state after one operation, success or failure (read-only
operations leave the state unchanged). -/
def applyOp (env : Env) (st : St) : Op → St
  | Op.register data newId now => (AuthService.register env st data newId now).1
  | Op.login email password tokenId now =>
    (AuthService.login env st email password tokenId now).1
  | Op.refresh token newTokenId now =>
    (AuthService.refresh env st token newTokenId now).1
  | Op.logout token => (AuthService.logout st token).1
  | Op.logoutAll userId => (AuthService.logoutAll st userId).1
  | Op.getUserById _ => st
  | Op.getAllUsers => st
  | Op.blockUser userId now => (UserService.blockUser st userId now).1

/-- Environment guarantee for one step: the record id Prisma generates
for `register` is fresh (no existing user carries it). -/
def opOk (st : St) : Op → Prop
  | Op.register _ newId _ => findById st.users newId = none
  | _ => True

/-- The state after a sequence of operations. -/
def applyOps (env : Env) (st : St) : List Op → St
  | [] => st
  | op :: rest => applyOps env (applyOp env st op) rest

/-- Every step of the sequence satisfies its environment guarantee. -/
def opsOk (env : Env) (st : St) : List Op → Prop
  | [] => True
  | op :: rest => opOk st op ∧ opsOk env (applyOp env st op) rest

/-- A user id that is present and inactive, with every record of that id
inactive. -/
def inactiveId (users : List User) (id : String) : Prop :=
  (∃ u ∈ users, u.id = id) ∧ ∀ u ∈ users, u.id = id → u.isActive = false

/-- The authenticated principal `req.user` attached by `authenticate`. -/
structure ReqUser where
  userId : String
  role : Role
deriving DecidableEq, Repr

/-- `isSelfOrAdmin` (`src/middlewares/auth.middleware.ts`): Forbidden
without an authenticated user; admins pass; otherwise pass exactly when
`req.user.userId === req.params.id` (strict string equality — an absent
`id` param never equals a caller id); all else Forbidden. -/
def isSelfOrAdmin (user : Option ReqUser) (paramsId : Option String) :
    Except Err Unit :=
  match user with
  | none => Except.error (Err.forbidden "Authentication required")
  | some u =>
    if u.role = Role.admin then Except.ok ()
    else if paramsId = some u.userId then Except.ok ()
    else Except.error (Err.forbidden "You can only access your own profile")

/-- Whether a call succeeded. -/
def isOk {α : Type} : Except Err α → Bool
  | Except.ok _ => true
  | Except.error _ => false

instance {ε α : Type} [DecidableEq ε] [DecidableEq α] :
    DecidableEq (Except ε α) := fun x y =>
  match x, y with
  | Except.ok a, Except.ok b =>
    if h : a = b then Decidable.isTrue (by rw [h])
    else Decidable.isFalse (by intro hc; cases hc; exact h rfl)
  | Except.error a, Except.error b =>
    if h : a = b then Decidable.isTrue (by rw [h])
    else Decidable.isFalse (by intro hc; cases hc; exact h rfl)
  | Except.ok _, Except.error _ => Decidable.isFalse (by intro hc; cases hc)
  | Except.error _, Except.ok _ => Decidable.isFalse (by intro hc; cases hc)

section RedisLemmas

variable (r : RedisSt)

theorem find?_filter_of_imp {α : Type} (p q : α → Bool)
    (h : ∀ a, p a = true → q a = true) :
    ∀ l : List α, (l.filter q).find? p = l.find? p := by
  intro l
  induction l with
  | nil => rfl
  | cons a l ih =>
    by_cases hq : q a = true
    · simp only [List.filter_cons, hq, if_pos]
      by_cases hp : p a = true
      · simp [List.find?_cons, hp]
      · simp only [List.find?_cons, Bool.not_eq_true] at hp ⊢
        simp [hp, ih]
    · have hp : p a = false := by
        cases hpa : p a with
        | false => rfl
        | true => exact absurd (h a hpa) hq
      simp only [Bool.not_eq_true] at hq
      simp [List.filter_cons, hq, List.find?_cons, hp, ih]

theorem RedisSt.available_setex (tid : String) (ttl : Nat) (uid : String) :
    (r.setex tid ttl uid).available = r.available := rfl

theorem RedisSt.available_sadd (uid tid : String) :
    (r.sadd uid tid).available = r.available := rfl

theorem RedisSt.available_srem (uid tid : String) :
    (r.srem uid tid).available = r.available := rfl

theorem RedisSt.available_delEntry (tid : String) :
    (r.delEntry tid).available = r.available := rfl

theorem RedisSt.available_delSet (uid : String) :
    (r.delSet uid).available = r.available := rfl

theorem RedisSt.get_srem (uid tid tid' : String) :
    (r.srem uid tid).get tid' = r.get tid' := rfl

theorem RedisSt.get_sadd (uid tid tid' : String) :
    (r.sadd uid tid).get tid' = r.get tid' := rfl

theorem RedisSt.get_delSet (uid : String) (tid : String) :
    (r.delSet uid).get tid = r.get tid := rfl

theorem RedisSt.get_setex_self (tid : String) (ttl : Nat) (uid : String) :
    (r.setex tid ttl uid).get tid = some uid := by
  simp [RedisSt.setex, RedisSt.get, List.find?_cons]

theorem RedisSt.get_setex_ne (tid : String) (ttl : Nat) (uid : String)
    (tid' : String) (h : tid' ≠ tid) :
    (r.setex tid ttl uid).get tid' = r.get tid' := by
  have hbeq : (tid == tid') = false := by
    simp [BEq.beq]
    intro he
    exact h he.symm
  simp only [RedisSt.setex, RedisSt.get, List.find?_cons, hbeq]
  have himp : ∀ e : RevEntry,
      (e.tokenId == tid') = true → (!(e.tokenId == tid)) = true := by
    intro e he
    have he' : e.tokenId = tid' := by simpa using he
    simp [he']
    intro hc
    exact h hc
  rw [find?_filter_of_imp (fun e => e.tokenId == tid')
    (fun e => !(e.tokenId == tid)) himp r.entries]

theorem RedisSt.get_delEntry_self (tid : String) :
    (r.delEntry tid).get tid = none := by
  have hn : (r.entries.filter (fun e => !(e.tokenId == tid))).find?
      (fun e => e.tokenId == tid) = none := by
    rw [List.find?_eq_none]
    intro a ha
    have := (List.mem_filter.mp ha).2
    simpa using this
  simp [RedisSt.delEntry, RedisSt.get, hn]

end RedisLemmas

/-! Concrete fixtures used by witnesses: a small environment (with a
transparent stand-in for bcrypt), an active user, a blocked user, and
states with the store up or down. -/

def envW : Env :=
  { secret := "s", accessExpSec := 900, refreshExpSec := 604800,
    hashPassword := fun p => "h:" ++ p,
    comparePassword := fun p hash => ("h:" ++ p) == hash }

def userW : User :=
  { id := "u1", fullName := "Ann", email := "a@x.com", password := "h:pw",
    dateOfBirth := "1990-01-01", role := Role.user, isActive := true,
    createdAt := 0, updatedAt := 0 }

def userBlockedW : User :=
  { userW with id := "u2", email := "b@x.com", isActive := false }

def stW : St :=
  { users := [userW, userBlockedW],
    redis := { available := true, entries := [], userTokens := [] } }

/-- `stW` with a live revocation entry `t1 → u1` and a valid refresh
token for it. -/
def stTokW : St :=
  { users := [userW, userBlockedW],
    redis := { available := true, entries := [⟨"t1", "u1", 604800⟩],
               userTokens := [("u1", ["t1"])] } }

def refreshTokW : Token :=
  Token.signed ⟨"u1", Role.user, TokenType.refresh, some "t1"⟩ "s" 604800

def stDownW : St :=
  { users := [userW, userBlockedW],
    redis := { available := false, entries := [⟨"t1", "u1", 604800⟩],
               userTokens := [("u1", ["t1"])] } }

/-- C8: `isSelfOrAdmin` authorizes a triple (callerId, role, targetId)
iff the role is admin or the target id equals the caller id under exact,
case-sensitive string equality; every other combination — including an
absent target-id parameter for a non-admin caller — is rejected with the
`Forbidden` error, not a validation error. -/
theorem spec_c8 (callerId : String) (role : Role) (targetId : Option String) :
    (isSelfOrAdmin (some ⟨callerId, role⟩) targetId = Except.ok () ↔
      (role = Role.admin ∨ targetId = some callerId)) ∧
    (¬(role = Role.admin ∨ targetId = some callerId) →
      isSelfOrAdmin (some ⟨callerId, role⟩) targetId =
        Except.error (Err.forbidden "You can only access your own profile")) ∧
    (role ≠ Role.admin →
      isSelfOrAdmin (some ⟨callerId, role⟩) none =
        Except.error (Err.forbidden "You can only access your own profile")) := by
  unfold isSelfOrAdmin
  rcases role with _ | _
  · simp
  · rcases targetId with _ | t
    · simp
    · by_cases h : t = callerId
      · simp [h]
      · have : ¬(some t = some callerId) := by simp [h]
        simp [h, this]

/-- Witness for C8 at a concrete denied triple. -/
theorem spec_c8_witness :
    isSelfOrAdmin (some ⟨"u1", Role.user⟩) (some "u2") =
      Except.error (Err.forbidden "You can only access your own profile") :=
  (spec_c8 "u1" Role.user (some "u2")).2.1 (by decide)

/-- C5: login fails `Unauthorized("Invalid credentials")` with the same
error value for an absent user and for a password mismatch on an active
user; an existing inactive user fails `Forbidden("Account is blocked")`
for every supplied password (the active check runs before the password
check, and the existence check before both). -/
theorem spec_c5 (env : Env) (st : St) (email password tokenId : String)
    (now : Nat) :
    (findByEmail st.users email = none →
      AuthService.login env st email password tokenId now =
        (st, Except.error (Err.unauthorized "Invalid credentials"))) ∧
    (∀ user, findByEmail st.users email = some user → user.isActive = true →
      env.comparePassword password user.password = false →
      AuthService.login env st email password tokenId now =
        (st, Except.error (Err.unauthorized "Invalid credentials"))) ∧
    (∀ user, findByEmail st.users email = some user → user.isActive = false →
      AuthService.login env st email password tokenId now =
        (st, Except.error (Err.forbidden "Account is blocked"))) := by
  refine ⟨?_, ?_, ?_⟩
  · intro h
    unfold AuthService.login
    rw [h]
  · intro user hfind hact hpw
    unfold AuthService.login
    rw [hfind]
    simp [hact, hpw]
  · intro user hfind hact
    unfold AuthService.login
    rw [hfind]
    simp [hact]

/-- Witness for C5: the blocked user (right password), an unknown email,
and a wrong password on the active user. -/
theorem spec_c5_witness :
    AuthService.login envW stW "b@x.com" "pw" "t1" 0 =
      (stW, Except.error (Err.forbidden "Account is blocked")) ∧
    AuthService.login envW stW "nobody@x.com" "pw" "t1" 0 =
      (stW, Except.error (Err.unauthorized "Invalid credentials")) ∧
    AuthService.login envW stW "a@x.com" "wrong" "t1" 0 =
      (stW, Except.error (Err.unauthorized "Invalid credentials")) :=
  ⟨(spec_c5 envW stW "b@x.com" "pw" "t1" 0).2.2 userBlockedW (by decide)
      (by decide),
   (spec_c5 envW stW "nobody@x.com" "pw" "t1" 0).1 (by decide),
   (spec_c5 envW stW "a@x.com" "wrong" "t1" 0).2.1 userW (by decide)
      (by decide) (by decide)⟩

/-- C3: registration against a stored user whose email differs from the
input only in letter case (identical case included) fails
`Conflict` and leaves the user table unchanged. -/
theorem spec_c3 (env : Env) (st : St) (u : User) (data : RegisterInput)
    (newId : String) (now : Nat)
    (hu : u ∈ st.users) (he : lowerEq u.email data.email = true) :
    AuthService.register env st data newId now =
      (st, Except.error (Err.conflict "Email already exists")) := by
  have hsome : (findByEmail st.users data.email).isSome := by
    unfold findByEmail
    rw [List.find?_isSome]
    exact ⟨u, hu, he⟩
  unfold AuthService.register
  cases hf : findByEmail st.users data.email with
  | none => rw [hf] at hsome; simp at hsome
  | some v => rfl

/-- Witness for C3: re-registering the first fixture user's email in a
different letter case. -/
theorem spec_c3_witness :
    AuthService.register envW stW ⟨"Bob", "A@X.COM", "pw2", "1991-02-02"⟩
        "u9" 3 =
      (stW, Except.error (Err.conflict "Email already exists")) :=
  spec_c3 envW stW userW ⟨"Bob", "A@X.COM", "pw2", "1991-02-02"⟩ "u9" 3
    (by decide) (by decide)

/-- C4: logout succeeds without touching the Revocation Store whenever
the unverified decode yields no payload or no (truthy) `tokenId` — in
particular even when the store is down — and when a `tokenId` is
recoverable the entry is deleted and a repeated logout with the same
token still succeeds. -/
theorem spec_c4 :
    (∀ (st : St) (tok : Token), TokenService.decodeToken tok = none →
      AuthService.logout st tok = (st, Except.ok ())) ∧
    (∀ (st : St) (tok : Token) (p : TokenPayload),
      TokenService.decodeToken tok = some p → jsTruthy p.tokenId = false →
      AuthService.logout st tok = (st, Except.ok ())) ∧
    (∀ (st : St) (tok : Token) (p : TokenPayload) (tid : String),
      TokenService.decodeToken tok = some p → p.tokenId = some tid →
      jsTruthy p.tokenId = true → st.redis.available = true →
      (AuthService.logout st tok).2 = Except.ok () ∧
      (AuthService.logout st tok).1.redis.get tid = none ∧
      (AuthService.logout (AuthService.logout st tok).1 tok).2 =
        Except.ok ()) := by
  refine ⟨?_, ?_, ?_⟩
  · intro st tok h
    unfold AuthService.logout
    rw [h]
  · intro st tok p h htid
    unfold AuthService.logout
    rw [h]
    simp [htid]
  · intro st tok p tid hdec htid htr hav
    have hgetD : p.tokenId.getD "" = tid := by rw [htid]; rfl
    have hfirst : AuthService.logout st tok =
        (({ st with redis :=
            (match st.redis.get tid with
             | some u =>
               if u.isEmpty then st.redis.delEntry tid
               else (st.redis.delEntry tid).srem u tid
             | none => st.redis.delEntry tid) } : St), Except.ok ()) := by
      unfold AuthService.logout
      rw [hdec]
      simp only [htr, Bool.not_true, Bool.false_eq_true, if_false, hgetD]
      unfold RedisService.deleteRefreshToken
      rw [hav]
      simp only [if_true]
    have hgnone : ∀ u,
        ((st.redis.delEntry tid).srem u tid).get tid = none := by
      intro u
      rw [RedisSt.get_srem, RedisSt.get_delEntry_self]
    refine ⟨by rw [hfirst], ?_, ?_⟩
    · rw [hfirst]
      cases st.redis.get tid with
      | none => exact RedisSt.get_delEntry_self st.redis tid
      | some u =>
        cases hu : u.isEmpty with
        | true => simp [hu, RedisSt.get_delEntry_self]
        | false => simp [hu, hgnone]
    · rw [hfirst]
      unfold AuthService.logout
      rw [hdec]
      simp only [htr, Bool.not_true, Bool.false_eq_true, if_false, hgetD]
      unfold RedisService.deleteRefreshToken
      have hav2 : (match st.redis.get tid with
          | some u =>
            if u.isEmpty then st.redis.delEntry tid
            else (st.redis.delEntry tid).srem u tid
          | none => st.redis.delEntry tid).available = true := by
        cases st.redis.get tid with
        | none => rw [RedisSt.available_delEntry]; exact hav
        | some u =>
          cases hu : u.isEmpty with
          | true => simp [hu, RedisSt.available_delEntry, hav]
          | false =>
            simp [hu, RedisSt.available_srem, RedisSt.available_delEntry, hav]
      simp only [hav2, if_true]

/-- Witness for C4: logging out a live fixture token twice, and logging
out a malformed token while the store is down. -/
theorem spec_c4_witness :
    (AuthService.logout stTokW refreshTokW).2 = Except.ok () ∧
    (AuthService.logout stTokW refreshTokW).1.redis.get "t1" = none ∧
    (AuthService.logout (AuthService.logout stTokW refreshTokW).1
        refreshTokW).2 = Except.ok () ∧
    AuthService.logout stDownW (Token.malformed "junk") =
      (stDownW, Except.ok ()) := by
  have h := spec_c4.2.2 stTokW refreshTokW
    ⟨"u1", Role.user, TokenType.refresh, some "t1"⟩ "t1"
    (by decide) (by decide) (by decide) (by decide)
  exact ⟨h.1, h.2.1, h.2.2,
    spec_c4.1 stDownW (Token.malformed "junk") (by decide)⟩

/-- C2: with the Revocation Store unreachable, refresh never succeeds,
and whenever the supplied token itself passes local validation (valid
signature, refresh kind, a truthy `tokenId`) the failure is exactly
`ServiceUnavailable` — the unreachable store is never treated as a valid
token. -/
theorem spec_c2 (env : Env) (st : St) (tok : Token) (newTid : String)
    (now : Nat) (hdown : st.redis.available = false) :
    isOk (AuthService.refresh env st tok newTid now).2 = false ∧
    (∀ p, TokenService.verifyToken env now tok = Except.ok p →
      p.type = TokenType.refresh → jsTruthy p.tokenId = true →
      (AuthService.refresh env st tok newTid now).2 =
        Except.error
          (Err.serviceUnavailable "Failed to retrieve refresh token")) := by
  constructor
  · unfold AuthService.refresh
    cases hv : TokenService.verifyToken env now tok with
    | error e => simp [isOk]
    | ok p =>
      by_cases hty : p.type = TokenType.refresh
      · simp only [hty, ne_eq, not_true_eq_false, if_false]
        by_cases htr : jsTruthy p.tokenId = true
        · simp only [htr, Bool.not_true, Bool.false_eq_true, if_false]
          unfold RedisService.getRefreshToken
          rw [hdown]
          simp [isOk]
        · simp only [Bool.not_eq_true] at htr
          simp [htr, isOk]
      · simp [hty, isOk]
  · intro p hv hty htr
    unfold AuthService.refresh
    rw [hv]
    simp only [hty, ne_eq, not_true_eq_false, if_false, htr, Bool.not_true,
      Bool.false_eq_true, if_false]
    unfold RedisService.getRefreshToken
    rw [hdown]
    simp

/-- Witness for C2: refreshing the fixture token while the store is
down. -/
theorem spec_c2_witness :
    isOk (AuthService.refresh envW stDownW refreshTokW "t2" 0).2 = false ∧
    (AuthService.refresh envW stDownW refreshTokW "t2" 0).2 =
      Except.error
        (Err.serviceUnavailable "Failed to retrieve refresh token") := by
  have h := spec_c2 envW stDownW refreshTokW "t2" 0 (by decide)
  exact ⟨h.1, h.2 ⟨"u1", Role.user, TokenType.refresh, some "t1"⟩
    (by decide) (by decide) (by decide)⟩

/-- Inversion of a successful refresh: the token verified with a refresh
payload carrying a truthy `tokenId`, the store was reachable, the entry
resolved to an existing active user, and the final state deleted the old
entry before recording the fresh pair for the fresh id. -/
theorem refresh_ok_shape (env : Env) (st : St) (tok : Token) (ntid : String)
    (now : Nat) (p : TokenPayload) (tid : String)
    (hver : TokenService.verifyToken env now tok = Except.ok p)
    (htid : p.tokenId = some tid)
    (hsucc : isOk (AuthService.refresh env st tok ntid now).2 = true) :
    p.type = TokenType.refresh ∧
    jsTruthy (some tid) = true ∧
    st.redis.available = true ∧
    ∃ uid user,
      st.redis.get tid = some uid ∧ uid.isEmpty = false ∧
      findById st.users uid = some user ∧ user.isActive = true ∧
      AuthService.refresh env st tok ntid now =
        ({ st with redis :=
            (((st.redis.delEntry tid).srem uid tid).setex ntid
              RedisService.refreshTokenTTL user.id).sadd user.id ntid },
         Except.ok ⟨TokenService.generateAccessToken env user.id user.role now,
           (TokenService.generateRefreshToken env user.id user.role ntid
             now).1⟩) := by
  unfold AuthService.refresh at hsucc
  rw [hver] at hsucc
  by_cases hty : p.type = TokenType.refresh
  case neg => exfalso; simp [hty, isOk] at hsucc
  simp only [hty, ne_eq, not_true_eq_false, if_false] at hsucc
  rw [htid] at hsucc
  by_cases htr : jsTruthy (some tid) = true
  case neg =>
    exfalso
    simp only [Bool.not_eq_true] at htr
    simp [htr, isOk] at hsucc
  simp only [htr, Bool.not_true, Bool.false_eq_true, if_false,
    Option.getD_some] at hsucc
  unfold RedisService.getRefreshToken at hsucc
  by_cases hav : st.redis.available = true
  case neg =>
    exfalso
    have hav' : st.redis.available = false := by
      cases h : st.redis.available
      · rfl
      · exact absurd h hav
    rw [hav'] at hsucc
    simp [isOk] at hsucc
  rw [hav] at hsucc
  simp only [if_true] at hsucc
  cases hget : st.redis.get tid with
  | none =>
    exfalso
    rw [hget] at hsucc
    simp [jsTruthy, isOk] at hsucc
  | some uid =>
    rw [hget] at hsucc
    by_cases hue : uid.isEmpty = true
    case pos => exfalso; simp [jsTruthy, hue, isOk] at hsucc
    have hue' : uid.isEmpty = false := by
      cases h : uid.isEmpty
      · rfl
      · exact absurd h hue
    simp only [jsTruthy, hue', Bool.not_false, Bool.not_true,
      Bool.false_eq_true, if_false, Option.getD_some] at hsucc
    cases hfind : findById st.users uid with
    | none =>
      exfalso
      rw [hfind] at hsucc
      unfold RedisService.deleteRefreshToken at hsucc
      rw [hav] at hsucc
      simp [isOk] at hsucc
    | some user =>
      rw [hfind] at hsucc
      by_cases hact : user.isActive = true
      case neg =>
        exfalso
        have hact' : user.isActive = false := by
          cases h : user.isActive
          · rfl
          · exact absurd h hact
        unfold RedisService.deleteRefreshToken at hsucc
        rw [hav] at hsucc
        simp [hact', isOk] at hsucc
      refine ⟨hty, htr, hav, uid, user, rfl, hue', hfind, hact, ?_⟩
      unfold AuthService.refresh
      rw [hver]
      simp only [hty, ne_eq, not_true_eq_false, if_false]
      rw [htid]
      simp only [htr, Bool.not_true, Bool.false_eq_true, if_false,
        Option.getD_some]
      unfold RedisService.getRefreshToken
      rw [hav]
      simp only [if_true]
      rw [hget]
      simp only [jsTruthy, hue', Bool.not_false, Bool.not_true,
        Bool.false_eq_true, if_false, Option.getD_some]
      rw [hfind]
      simp only [hact, Bool.not_true, Bool.false_eq_true, if_false]
      unfold RedisService.deleteRefreshToken
      rw [hav]
      simp only [if_true, hget, hue', Bool.false_eq_true, if_false]
      unfold RedisService.storeRefreshToken
      rw [RedisSt.available_srem, RedisSt.available_delEntry, hav]
      simp only [if_true]
      rfl

/-- C1: refresh tokens are single-use.  If a refresh call on token `tok`
(whose payload carries `tokenId = tid`) succeeds, then — provided the
freshly generated id differs from `tid` (collision resistance) — the
post-state no longer stores `tid`, and a second refresh with the same
token (still verifying at the later instant) fails
`Unauthorized("Invalid or revoked token")`. -/
theorem spec_c1 (env : Env) (st : St) (tok : Token) (newTid : String)
    (now : Nat) (p : TokenPayload) (tid : String) (now₂ : Nat)
    (newTid₂ : String)
    (hver : TokenService.verifyToken env now tok = Except.ok p)
    (htid : p.tokenId = some tid)
    (hsucc : isOk (AuthService.refresh env st tok newTid now).2 = true)
    (hfresh : newTid ≠ tid)
    (hver2 : TokenService.verifyToken env now₂ tok = Except.ok p) :
    (AuthService.refresh env st tok newTid now).1.redis.get tid = none ∧
    (AuthService.refresh env (AuthService.refresh env st tok newTid now).1
        tok newTid₂ now₂).2 =
      Except.error (Err.unauthorized "Invalid or revoked token") := by
  obtain ⟨hty, htr, hav, uid, user, hget, hue, hfind, hact, heq⟩ :=
    refresh_ok_shape env st tok newTid now p tid hver htid hsucc
  have hne : tid ≠ newTid := fun h => hfresh h.symm
  have hgetnone : ((((st.redis.delEntry tid).srem uid tid).setex newTid
      RedisService.refreshTokenTTL user.id).sadd user.id newTid).get tid =
      none := by
    rw [RedisSt.get_sadd,
      RedisSt.get_setex_ne _ newTid RedisService.refreshTokenTTL user.id tid
        hne,
      RedisSt.get_srem, RedisSt.get_delEntry_self]
  have havX : ((((st.redis.delEntry tid).srem uid tid).setex newTid
      RedisService.refreshTokenTTL user.id).sadd user.id newTid).available =
      true := by
    rw [RedisSt.available_sadd, RedisSt.available_setex,
      RedisSt.available_srem, RedisSt.available_delEntry]
    exact hav
  constructor
  · rw [heq]
    exact hgetnone
  · rw [heq]
    unfold AuthService.refresh
    rw [hver2]
    simp only [hty, ne_eq, not_true_eq_false, if_false]
    rw [htid]
    simp only [htr, Bool.not_true, Bool.false_eq_true, if_false,
      Option.getD_some]
    unfold RedisService.getRefreshToken
    rw [havX]
    simp only [if_true]
    rw [hgetnone]
    simp [jsTruthy]

/-- Witness for C1: rotating the fixture token once, then replaying it. -/
theorem spec_c1_witness :
    (AuthService.refresh envW stTokW refreshTokW "t2" 0).1.redis.get "t1" =
      none ∧
    (AuthService.refresh envW
        (AuthService.refresh envW stTokW refreshTokW "t2" 0).1
        refreshTokW "t3" 5).2 =
      Except.error (Err.unauthorized "Invalid or revoked token") :=
  spec_c1 envW stTokW refreshTokW "t2" 0
    ⟨"u1", Role.user, TokenType.refresh, some "t1"⟩ "t1" 5 "t3"
    (by decide) (by decide) (by decide) (by decide) (by decide)

/-- Inversion of a successful login: the email resolved to an active user
with a matching password, the store was reachable, and the result records
the fresh token id for the user and returns the password-free projection
with the freshly signed pair. -/
theorem login_ok_shape (env : Env) (st : St) (email password tokenId : String)
    (now : Nat)
    (hsucc : isOk (AuthService.login env st email password tokenId now).2 =
      true) :
    ∃ user, findByEmail st.users email = some user ∧ user.isActive = true ∧
      env.comparePassword password user.password = true ∧
      st.redis.available = true ∧
      AuthService.login env st email password tokenId now =
        ({ st with redis :=
            (st.redis.setex tokenId RedisService.refreshTokenTTL
              user.id).sadd user.id tokenId },
         Except.ok (excludePassword user,
           ⟨TokenService.generateAccessToken env user.id user.role now,
            (TokenService.generateRefreshToken env user.id user.role tokenId
              now).1⟩)) := by
  unfold AuthService.login at hsucc
  cases hfind : findByEmail st.users email with
  | none => exfalso; rw [hfind] at hsucc; simp [isOk] at hsucc
  | some user =>
    rw [hfind] at hsucc
    by_cases hact : user.isActive = true
    case neg =>
      exfalso
      have hact' : user.isActive = false := by
        cases h : user.isActive
        · rfl
        · exact absurd h hact
      simp [hact', isOk] at hsucc
    by_cases hpw : env.comparePassword password user.password = true
    case neg =>
      exfalso
      have hpw' : env.comparePassword password user.password = false := by
        cases h : env.comparePassword password user.password
        · rfl
        · exact absurd h hpw
      simp [hact, hpw', isOk] at hsucc
    by_cases hav : st.redis.available = true
    case neg =>
      exfalso
      have hav' : st.redis.available = false := by
        cases h : st.redis.available
        · rfl
        · exact absurd h hav
      unfold RedisService.storeRefreshToken at hsucc
      simp [hact, hpw, hav', isOk] at hsucc
    refine ⟨user, rfl, hact, hpw, hav, ?_⟩
    unfold AuthService.login
    rw [hfind]
    simp only [hact, hpw, Bool.not_true, Bool.false_eq_true, if_false]
    unfold RedisService.storeRefreshToken
    rw [hav]
    simp only [if_true]
    rfl

/-- A successful refresh presupposes that verification succeeded with a
payload carrying some `tokenId`. -/
theorem refresh_ok_verify (env : Env) (st : St) (tok : Token) (ntid : String)
    (now : Nat)
    (hsucc : isOk (AuthService.refresh env st tok ntid now).2 = true) :
    ∃ p tid, TokenService.verifyToken env now tok = Except.ok p ∧
      p.tokenId = some tid := by
  unfold AuthService.refresh at hsucc
  cases hv : TokenService.verifyToken env now tok with
  | error e => exfalso; rw [hv] at hsucc; simp [isOk] at hsucc
  | ok p =>
    rw [hv] at hsucc
    by_cases hty : p.type = TokenType.refresh
    case neg => exfalso; simp [hty, isOk] at hsucc
    cases htid : p.tokenId with
    | none =>
      exfalso
      simp only [hty, ne_eq, not_true_eq_false, if_false] at hsucc
      rw [htid] at hsucc
      simp [jsTruthy, isOk] at hsucc
    | some tid => exact ⟨p, tid, rfl, htid⟩

/-- The `excludePassword` projection has no `password` field. -/
theorem lookup_password_excludePassword (u : User) :
    (excludePassword u).lookup "password" = none := by
  simp [excludePassword, User.toObj, JsObj.lookup, List.filter, List.find?]

/-- The refresh response body `{accessToken, refreshToken}` as a JS
object. -/
def TokenPair.toObj (p : TokenPair) : JsObj :=
  [("accessToken", JsVal.tok p.accessToken),
   ("refreshToken", JsVal.tok p.refreshToken)]

/-- C9: no value returned by a successful register, login, refresh,
getUserById, getAllUsers or blockUser carries a `password` field — every
user projection goes through `excludePassword`, and the refresh response
is only the token pair. -/
theorem spec_c9 :
    (∀ (env : Env) (st : St) (data : RegisterInput) (newId : String)
      (now : Nat) (proj : JsObj),
      (AuthService.register env st data newId now).2 = Except.ok proj →
      proj.lookup "password" = none) ∧
    (∀ (env : Env) (st : St) (email password tokenId : String) (now : Nat)
      (proj : JsObj) (pair : TokenPair),
      (AuthService.login env st email password tokenId now).2 =
        Except.ok (proj, pair) →
      proj.lookup "password" = none) ∧
    (∀ (env : Env) (st : St) (tok : Token) (ntid : String) (now : Nat)
      (pair : TokenPair),
      (AuthService.refresh env st tok ntid now).2 = Except.ok pair →
      pair.toObj.lookup "password" = none) ∧
    (∀ (st : St) (userId : String) (proj : JsObj),
      UserService.getUserById st userId = Except.ok proj →
      proj.lookup "password" = none) ∧
    (∀ (st : St) (projs : List JsObj),
      UserService.getAllUsers st = Except.ok projs →
      ∀ proj ∈ projs, proj.lookup "password" = none) ∧
    (∀ (st : St) (userId : String) (now : Nat) (proj : JsObj),
      (UserService.blockUser st userId now).2 = Except.ok proj →
      proj.lookup "password" = none) := by
  refine ⟨?_, ?_, ?_, ?_, ?_, ?_⟩
  · intro env st data newId now proj h
    unfold AuthService.register at h
    cases hfind : findByEmail st.users data.email with
    | some v => rw [hfind] at h; simp at h
    | none =>
      rw [hfind] at h
      simp only [Except.ok.injEq] at h
      rw [← h]
      exact lookup_password_excludePassword _
  · intro env st email password tokenId now proj pair h
    have hsucc : isOk (AuthService.login env st email password tokenId
        now).2 = true := by rw [h]; rfl
    obtain ⟨user, _, _, _, _, heq⟩ :=
      login_ok_shape env st email password tokenId now hsucc
    rw [heq] at h
    simp only [Except.ok.injEq, Prod.mk.injEq] at h
    rw [← h.1]
    exact lookup_password_excludePassword user
  · intro env st tok ntid now pair h
    rfl
  · intro st userId proj h
    unfold UserService.getUserById at h
    cases hfind : findById st.users userId with
    | none => rw [hfind] at h; simp at h
    | some user =>
      rw [hfind] at h
      simp only [Except.ok.injEq] at h
      rw [← h]
      exact lookup_password_excludePassword user
  · intro st projs h proj hmem
    unfold UserService.getAllUsers at h
    simp only [Except.ok.injEq] at h
    rw [← h] at hmem
    obtain ⟨u, _, hu⟩ := List.mem_map.mp hmem
    rw [← hu]
    exact lookup_password_excludePassword u
  · intro st userId now proj h
    unfold UserService.blockUser at h
    cases hfind : findById st.users userId with
    | none => rw [hfind] at h; simp at h
    | some user =>
      rw [hfind] at h
      cases hdel : RedisService.deleteAllUserTokens st.redis userId with
      | error e => rw [hdel] at h; simp at h
      | ok redis =>
        rw [hdel] at h
        simp only [Except.ok.injEq] at h
        rw [← h]
        exact lookup_password_excludePassword _

/-- Witness for C9: a concrete successful registration's projection has
no `password` field. -/
theorem spec_c9_witness :
    ((AuthService.register envW stW
        ⟨"Cara", "c@x.com", "pw3", "1992-03-03"⟩ "u3" 7).2.toOption.getD
      []).lookup "password" = none :=
  spec_c9.1 envW stW ⟨"Cara", "c@x.com", "pw3", "1992-03-03"⟩ "u3" 7 _ rfl

/-- C10: issued refresh tokens are self-describing store keys — the
`tokenId` returned by `generateTokenPair` is exactly the one embedded in
the refresh token's payload, the access token's payload carries none, and
after every successful login and refresh the Revocation Store maps the
id obtained by verifying the issued refresh token to that token's own
subject. -/
theorem spec_c10 :
    (∀ (env : Env) (uid : String) (role : Role) (tid : String) (now : Nat),
      (TokenService.generateTokenPair env uid role tid now).2.2 = tid ∧
      (TokenService.decodeToken
          (TokenService.generateTokenPair env uid role tid now).2.1).map
        TokenPayload.tokenId = some (some tid) ∧
      (TokenService.decodeToken
          (TokenService.generateTokenPair env uid role tid now).1).map
        TokenPayload.tokenId = some none) ∧
    (∀ (env : Env) (st : St) (email password tokenId : String) (now : Nat)
      (proj : JsObj) (pair : TokenPair),
      0 < env.refreshExpSec →
      (AuthService.login env st email password tokenId now).2 =
        Except.ok (proj, pair) →
      ∃ p, TokenService.verifyToken env now pair.refreshToken =
          Except.ok p ∧ p.tokenId = some tokenId ∧
        (AuthService.login env st email password tokenId
          now).1.redis.get tokenId = some p.userId) ∧
    (∀ (env : Env) (st : St) (tok : Token) (ntid : String) (now : Nat)
      (pair : TokenPair),
      0 < env.refreshExpSec →
      (AuthService.refresh env st tok ntid now).2 = Except.ok pair →
      ∃ p, TokenService.verifyToken env now pair.refreshToken =
          Except.ok p ∧ p.tokenId = some ntid ∧
        (AuthService.refresh env st tok ntid
          now).1.redis.get ntid = some p.userId) := by
  refine ⟨?_, ?_, ?_⟩
  · intro env uid role tid now
    exact ⟨rfl, rfl, rfl⟩
  · intro env st email password tokenId now proj pair hexp h
    have hsucc : isOk (AuthService.login env st email password tokenId
        now).2 = true := by rw [h]; rfl
    obtain ⟨user, _, _, _, _, heq⟩ :=
      login_ok_shape env st email password tokenId now hsucc
    rw [heq] at h
    simp only [Except.ok.injEq, Prod.mk.injEq] at h
    refine ⟨⟨user.id, user.role, TokenType.refresh, some tokenId⟩, ?_, rfl,
      ?_⟩
    · rw [← h.2]
      unfold TokenService.generateRefreshToken TokenService.verifyToken
      simp only [ne_eq, not_true_eq_false, if_false]
      rw [if_neg (by omega)]
    · rw [heq]
      simp only
      rw [RedisSt.get_sadd, RedisSt.get_setex_self]
  · intro env st tok ntid now pair hexp h
    have hsucc : isOk (AuthService.refresh env st tok ntid now).2 = true := by
      rw [h]; rfl
    obtain ⟨p0, tid0, hver, htid0⟩ :=
      refresh_ok_verify env st tok ntid now hsucc
    obtain ⟨hty, htr, hav, uid, user, hget, hue, hfind, hact, heq⟩ :=
      refresh_ok_shape env st tok ntid now p0 tid0 hver htid0 hsucc
    rw [heq] at h
    simp only [Except.ok.injEq] at h
    refine ⟨⟨user.id, user.role, TokenType.refresh, some ntid⟩, ?_, rfl, ?_⟩
    · rw [← h]
      unfold TokenService.generateRefreshToken TokenService.verifyToken
      simp only [ne_eq, not_true_eq_false, if_false]
      rw [if_neg (by omega)]
    · rw [heq]
      simp only
      rw [RedisSt.get_sadd, RedisSt.get_setex_self]

/-- Witness for C10: the fixture login records the verifiable id `t9` for
user `u1`. -/
theorem spec_c10_witness :
    TokenService.verifyToken envW 0
        (Token.signed ⟨"u1", Role.user, TokenType.refresh, some "t9"⟩ "s"
          604800) =
      Except.ok ⟨"u1", Role.user, TokenType.refresh, some "t9"⟩ ∧
    (AuthService.login envW stW "a@x.com" "pw" "t9" 0).1.redis.get "t9" =
      some "u1" := by
  obtain ⟨p, h1, h2, h3⟩ := spec_c10.2.1 envW stW "a@x.com" "pw" "t9" 0
    (excludePassword userW)
    ⟨Token.signed ⟨"u1", Role.user, TokenType.access, none⟩ "s" 900,
     Token.signed ⟨"u1", Role.user, TokenType.refresh, some "t9"⟩ "s"
       604800⟩
    (by decide) (by decide)
  have hcomp : TokenService.verifyToken envW 0
      (Token.signed ⟨"u1", Role.user, TokenType.refresh, some "t9"⟩ "s"
        604800) =
      Except.ok ⟨"u1", Role.user, TokenType.refresh, some "t9"⟩ := by decide
  have hp : p = ⟨"u1", Role.user, TokenType.refresh, some "t9"⟩ := by
    rw [hcomp] at h1
    injection h1 with h
    exact h.symm
  rw [hp] at h3
  exact ⟨hcomp, h3⟩

/-- An environment whose configured refresh-token lifetime (1 day) is not
the redis service's hard-coded 7-day TTL. -/
def envC6 : Env :=
  { secret := "s", accessExpSec := 900, refreshExpSec := 86400,
    hashPassword := fun p => "h:" ++ p,
    comparePassword := fun p hash => ("h:" ++ p) == hash }

/-- Counterexample for C6: with the refresh-token lifetime configured to
86400 s, a successful login still stores the revocation entry with TTL
604800 s (`RedisService.refreshTokenTTL`, hard-coded), so the entry TTL
does not equal the configured refresh-token lifetime. -/
theorem spec_c6_counterexample :
    isOk (AuthService.login envC6 stW "a@x.com" "pw" "t1" 0).2 = true ∧
    ((AuthService.login envC6 stW "a@x.com" "pw" "t1"
        0).1.redis.entries.find? (fun e => e.tokenId == "t1")).map
      RevEntry.ttl = some 604800 ∧
    envC6.refreshExpSec = 86400 ∧ ¬(604800 = 86400) := by decide

/-- The entry just written by `setex` (entries untouched by `sadd`)
carries exactly the TTL it was written with. -/
theorem ttl_setex_sadd (r : RedisSt) (tid : String) (ttl : Nat)
    (uid uid2 tid2 : String) :
    ((((r.setex tid ttl uid).sadd uid2 tid2).entries.find?
      (fun e => e.tokenId == tid))).map RevEntry.ttl = some ttl := by
  simp [RedisSt.sadd, RedisSt.setex, List.find?_cons]

/-- C6 (amended): the revocation entry written on every successful login
and refresh carries the fixed TTL `RedisService.refreshTokenTTL`
= 7·24·60·60 s — a hard-coded constant equal to the default refresh-token
lifetime, not the configured one — while the access- and refresh-token
lifetimes inside the issued JWTs do come from the configuration. -/
theorem spec_c6 :
    (∀ (env : Env) (st : St) (email password tokenId : String) (now : Nat),
      isOk (AuthService.login env st email password tokenId now).2 = true →
      ((AuthService.login env st email password tokenId
          now).1.redis.entries.find? (fun e => e.tokenId == tokenId)).map
        RevEntry.ttl = some RedisService.refreshTokenTTL) ∧
    (∀ (env : Env) (st : St) (tok : Token) (ntid : String) (now : Nat),
      isOk (AuthService.refresh env st tok ntid now).2 = true →
      ((AuthService.refresh env st tok ntid
          now).1.redis.entries.find? (fun e => e.tokenId == ntid)).map
        RevEntry.ttl = some RedisService.refreshTokenTTL) ∧
    RedisService.refreshTokenTTL = 7 * 24 * 60 * 60 ∧
    (∀ (env : Env) (uid : String) (role : Role) (tid : String) (now : Nat),
      (TokenService.generateTokenPair env uid role tid now).1 =
        Token.signed ⟨uid, role, TokenType.access, none⟩ env.secret
          (now + env.accessExpSec) ∧
      (TokenService.generateTokenPair env uid role tid now).2.1 =
        Token.signed ⟨uid, role, TokenType.refresh, some tid⟩ env.secret
          (now + env.refreshExpSec)) := by
  refine ⟨?_, ?_, rfl, ?_⟩
  · intro env st email password tokenId now hsucc
    obtain ⟨user, _, _, _, _, heq⟩ :=
      login_ok_shape env st email password tokenId now hsucc
    rw [heq]
    exact ttl_setex_sadd st.redis tokenId RedisService.refreshTokenTTL
      user.id user.id tokenId
  · intro env st tok ntid now hsucc
    obtain ⟨p0, tid0, hver, htid0⟩ :=
      refresh_ok_verify env st tok ntid now hsucc
    obtain ⟨hty, htr, hav, uid, user, hget, hue, hfind, hact, heq⟩ :=
      refresh_ok_shape env st tok ntid now p0 tid0 hver htid0 hsucc
    rw [heq]
    exact ttl_setex_sadd ((st.redis.delEntry tid0).srem uid tid0) ntid
      RedisService.refreshTokenTTL user.id user.id ntid
  · intro env uid role tid now
    exact ⟨rfl, rfl⟩

/-- Witness for C6 (amended): the fixture login stores TTL 604800. -/
theorem spec_c6_witness :
    ((AuthService.login envW stW "a@x.com" "pw" "t1"
        0).1.redis.entries.find? (fun e => e.tokenId == "t1")).map
      RevEntry.ttl = some RedisService.refreshTokenTTL :=
  spec_c6.1 envW stW "a@x.com" "pw" "t1" 0 (by decide)

/-- Login never modifies the user table. -/
theorem users_login (env : Env) (st : St) (email password tokenId : String)
    (now : Nat) :
    (AuthService.login env st email password tokenId now).1.users =
      st.users := by
  unfold AuthService.login
  repeat' split
  all_goals rfl

/-- Refresh never modifies the user table. -/
theorem users_refresh (env : Env) (st : St) (tok : Token) (ntid : String)
    (now : Nat) :
    (AuthService.refresh env st tok ntid now).1.users = st.users := by
  unfold AuthService.refresh
  dsimp only
  repeat' split
  all_goals rfl

/-- Logout never modifies the user table. -/
theorem users_logout (st : St) (tok : Token) :
    (AuthService.logout st tok).1.users = st.users := by
  unfold AuthService.logout
  repeat' split
  all_goals rfl

/-- Logout-all never modifies the user table. -/
theorem users_logoutAll (st : St) (userId : String) :
    (AuthService.logoutAll st userId).1.users = st.users := by
  unfold AuthService.logoutAll
  repeat' split
  all_goals rfl

/-- Blocking maps every record with the target id to the inactive
updated record; the inactive-id property is preserved. -/
theorem inactiveId_map_block (users : List User) (userId : String)
    (user : User) (now : Nat) (id : String) (huid : user.id = userId)
    (h : inactiveId users id) :
    inactiveId (users.map (fun u => if u.id == userId then
      { user with isActive := false, updatedAt := now } else u)) id := by
  obtain ⟨⟨u, hu, hu_id⟩, hall⟩ := h
  constructor
  · refine ⟨if u.id == userId then
      { user with isActive := false, updatedAt := now } else u,
      List.mem_map_of_mem _ hu, ?_⟩
    by_cases hcase : (u.id == userId) = true
    · rw [if_pos hcase]
      have hueq : u.id = userId := by simpa using hcase
      show user.id = id
      rw [huid, ← hueq, hu_id]
    · rw [if_neg hcase]
      exact hu_id
  · intro v hv hvid
    obtain ⟨w, hw, hweq⟩ := List.mem_map.mp hv
    cases hweq
    by_cases hwc : (w.id == userId) = true
    · rw [if_pos hwc]
    · rw [if_neg hwc] at hvid ⊢
      exact hall w hw hvid

/-- One operation preserves "this id is present and inactive, and every
record of this id is inactive" (register needs the freshness of the
generated record id). -/
theorem inactiveId_applyOp (env : Env) (st : St) (op : Op) (id : String)
    (hok : opOk st op) (h : inactiveId st.users id) :
    inactiveId (applyOp env st op).users id := by
  cases op with
  | register data newId now =>
    show inactiveId (AuthService.register env st data newId now).1.users id
    unfold AuthService.register
    cases hfind : findByEmail st.users data.email with
    | some v => exact h
    | none =>
      obtain ⟨⟨u, hu, huid⟩, hall⟩ := h
      have hfresh : ∀ v ∈ st.users, ¬(v.id == newId) = true :=
        List.find?_eq_none.mp hok
      constructor
      · exact ⟨u, List.mem_append_left _ hu, huid⟩
      · intro v hv hvid
        rcases List.mem_append.mp hv with hv | hv
        · exact hall v hv hvid
        · exfalso
          simp only [List.mem_singleton] at hv
          subst hv
          have hvnew : newId = id := hvid
          apply hfresh u hu
          have : u.id = newId := by rw [huid, ← hvnew]
          simp [this]
  | login email password tokenId now =>
    show inactiveId
      (AuthService.login env st email password tokenId now).1.users id
    rw [users_login]
    exact h
  | refresh tok ntid now =>
    show inactiveId (AuthService.refresh env st tok ntid now).1.users id
    rw [users_refresh]
    exact h
  | logout tok =>
    show inactiveId (AuthService.logout st tok).1.users id
    rw [users_logout]
    exact h
  | logoutAll userId =>
    show inactiveId (AuthService.logoutAll st userId).1.users id
    rw [users_logoutAll]
    exact h
  | getUserById userId => exact h
  | getAllUsers => exact h
  | blockUser userId now =>
    show inactiveId (UserService.blockUser st userId now).1.users id
    unfold UserService.blockUser
    cases hfind : findById st.users userId with
    | none => exact h
    | some user =>
      have huid : user.id = userId := by
        have := List.find?_some hfind
        simpa using this
      cases hdel : RedisService.deleteAllUserTokens st.redis userId with
      | error e =>
        exact inactiveId_map_block st.users userId user now id huid h
      | ok redis =>
        exact inactiveId_map_block st.users userId user now id huid h

/-- A whole sequence of operations preserves the inactive-id property. -/
theorem inactiveId_applyOps (env : Env) (st : St) (ops : List Op)
    (id : String) (hok : opsOk env st ops) (h : inactiveId st.users id) :
    inactiveId (applyOps env st ops).users id := by
  induction ops generalizing st with
  | nil => exact h
  | cons op rest ih =>
    exact ih (applyOp env st op) hok.2
      (inactiveId_applyOp env st op id hok.1 h)

/-- With the store reachable, deleting all of a user's tokens always
succeeds. -/
theorem deleteAll_ok (r : RedisSt) (uid : String) (hav : r.available = true) :
    ∃ r', RedisService.deleteAllUserTokens r uid = Except.ok r' := by
  unfold RedisService.deleteAllUserTokens
  rw [hav]
  simp only [if_true]
  split
  · exact ⟨_, rfl⟩
  · exact ⟨_, rfl⟩

/-- C7: deactivation is one-way.  Along every sequence of service
operations (with Prisma generating fresh record ids on register), an
inactive user id stays present and inactive; register creates its record
with `isActive = true`; and blockUser on any existing user — already
blocked or not — succeeds when the store is reachable, leaves every
record of that id inactive, and still performs the token revocation.  No
operation ever sets `isActive` back to `true`. -/
theorem spec_c7 :
    (∀ (env : Env) (st : St) (ops : List Op) (id : String),
      opsOk env st ops → inactiveId st.users id →
      inactiveId (applyOps env st ops).users id) ∧
    (∀ (env : Env) (st : St) (data : RegisterInput) (newId : String)
      (now : Nat) (proj : JsObj),
      (AuthService.register env st data newId now).2 = Except.ok proj →
      ∃ newUser, (AuthService.register env st data newId now).1.users =
        st.users ++ [newUser] ∧ newUser.isActive = true) ∧
    (∀ (st : St) (userId : String) (now : Nat) (user : User),
      findById st.users userId = some user → st.redis.available = true →
      isOk (UserService.blockUser st userId now).2 = true ∧
      (∀ v ∈ (UserService.blockUser st userId now).1.users,
        v.id = userId → v.isActive = false) ∧
      ∃ redis, RedisService.deleteAllUserTokens st.redis userId =
        Except.ok redis ∧
        (UserService.blockUser st userId now).1.redis = redis) := by
  refine ⟨inactiveId_applyOps, ?_, ?_⟩
  · intro env st data newId now proj h
    unfold AuthService.register at h ⊢
    cases hfind : findByEmail st.users data.email with
    | some v => rw [hfind] at h; simp at h
    | none =>
      exact ⟨_, rfl, rfl⟩
  · intro st userId now user hfind hav
    obtain ⟨r', hdel⟩ := deleteAll_ok st.redis userId hav
    have hblock : UserService.blockUser st userId now =
        (({ users := st.users.map (fun u => if u.id == userId then
              { user with isActive := false, updatedAt := now } else u),
            redis := r' } : St),
         Except.ok (excludePassword
           { user with isActive := false, updatedAt := now })) := by
      unfold UserService.blockUser
      rw [hfind, hdel]
    refine ⟨by rw [hblock]; rfl, ?_, r', hdel, by rw [hblock]⟩
    intro v hv hvid
    rw [hblock] at hv
    obtain ⟨w, hw, hweq⟩ := List.mem_map.mp hv
    cases hweq
    by_cases hwc : (w.id == userId) = true
    · rw [if_pos hwc]
    · rw [if_neg hwc] at hvid ⊢
      exact absurd (by simp [hvid]) hwc

/-- Witness for C7: after blocking `u1`, a login attempt and a fresh
registration, the blocked fixture id `u2` is still present and
inactive. -/
theorem spec_c7_witness :
    inactiveId (applyOps envW stW
      [Op.blockUser "u1" 1, Op.login "a@x.com" "pw" "t5" 2,
       Op.register ⟨"Dan", "d@x.com", "pw4", "1993-04-04"⟩ "u4" 3]).users
      "u2" :=
  spec_c7.1 envW stW
    [Op.blockUser "u1" 1, Op.login "a@x.com" "pw" "t5" 2,
     Op.register ⟨"Dan", "d@x.com", "pw4", "1993-04-04"⟩ "u4" 3] "u2"
    ⟨trivial, trivial, by unfold opOk; decide, trivial⟩
    ⟨⟨userBlockedW, by decide, by decide⟩, by decide⟩
